import Mathlib

/-!
Shallow embedding of the BEDEO web crawler
(src/tools/web_crawling_tools.py and src/agents/web_crawling_agent.py).

The network, the BeautifulSoup HTML parser, the urljoin resolver and the
PyPDF2 text extractor are outside effects; they are modelled by a Web
record supplied to every function: a finite map from URL to the outcome of
an HTTP GET (requests.get), a pure parse function returning the parts of
the soup the source reads, a urljoin model and a PDF page-text model.
Python exceptions are modelled with Except; machine-level details (real
time, the 1-second sleep, the JSON serialisation of the final report) are
collapsed: the report is represented as the structured value that
json.dumps would serialise.

Functions keep the names of the Python source.  crawl_single_url and
extract_pdf_content additionally return the list of URLs passed to
requests.get (the GET log), which the source performs as a side effect.
-/

namespace Bedeo

/-- Python str helpers: whitespace class used by str.strip and re \s
(ASCII part, which is what the crawler's inputs exercise). -/
def isPyWs (c : Char) : Bool :=
  c = ' ' || c = '\t' || c = '\n' || c = '\r' || c = '\x0b' || c = '\x0c'

/-- Worker for collapseWs: the Bool records whether the previous character
was part of a whitespace run already replaced by one space. -/
def collapseGo : Bool → List Char → List Char
  | _, [] => []
  | prevWs, c :: rest =>
    if isPyWs c then
      if prevWs then collapseGo true rest
      else ' ' :: collapseGo true rest
    else c :: collapseGo false rest

/-- Models re.sub of one-or-more whitespace to a single space, as used on
the extracted page text. -/
def collapseWs (s : String) : String :=
  (collapseGo false s.toList).asString

/-- Models Python str.strip with no arguments. -/
def pyStrip (s : String) : String :=
  (((s.toList.dropWhile isPyWs).reverse.dropWhile isPyWs).reverse).asString

/-- Models the Python substring test (sub in s). -/
def strContainsSub (s sub : String) : Bool :=
  let sl := s.toList
  let tl := sub.toList
  (List.range (sl.length + 1)).any (fun i => tl.isPrefixOf (sl.drop i))

/-- Models Python str.lower for the ASCII range the crawler compares. -/
def pyLower (s : String) : String :=
  (s.toList.map Char.toLower).asString

/-- Models Python str.startswith. -/
def pyStartsWith (s sub : String) : Bool :=
  sub.toList.isPrefixOf s.toList

/-- Models the Python slice l[:k] for an arbitrary (possibly negative)
integer bound k. -/
def pySlice {α : Type} (k : Int) (l : List α) : List α :=
  if 0 ≤ k then l.take k.toNat else l.take ((l.length : Int) + k).toNat

/-- Models the Python slice s[:n] on a string, for n ≥ 0 (code points). -/
def pyTakeChars (n : Nat) (s : String) : String :=
  (s.toList.take n).asString

/-- Association-list lookup, modelling Python dict access on the small
string-keyed dicts the crawler builds (insertion order preserved). -/
def alookup {α : Type} (k : String) : List (String × α) → Option α
  | [] => none
  | (k', v) :: rest => if k = k' then some v else alookup k rest

/-- Drops characters up to and including the first occurrence of the
separator. -/
def dropThroughSep (sep : List Char) : List Char → List Char
  | [] => []
  | c :: rest =>
    if sep.isPrefixOf (c :: rest) then (c :: rest).drop sep.length
    else dropThroughSep sep rest

/-- Simplified model of urllib.parse.urlparse(url).path for http(s) URLs:
strip the fragment, the query, then the scheme and network location; the
path starts at the first slash after the host. -/
def urlparsePath (url : String) : String :=
  let cs := (url.toList.takeWhile (fun c => c ≠ '#')).takeWhile (fun c => c ≠ '?')
  if (List.range (cs.length + 1)).any
      (fun i => ("://".toList).isPrefixOf (cs.drop i)) then
    ((dropThroughSep ("://".toList) cs).dropWhile (fun c => c ≠ '/')).asString
  else cs.asString

/-- Models urlparse(url).path.split('/')[-1], the label used for PDF and
plain-text titles: the characters after the last slash of the path. -/
def pathLastSeg (url : String) : String :=
  (((urlparsePath url).toList.reverse.takeWhile (fun c => c ≠ '/')).reverse).asString

/-- An HTTP response as the source reads it: the status code, the value of
the content-type header (empty string when absent, matching
headers.get('content-type', '')) and the decoded body (used both as
response.text and response.content). -/
structure Resp where
  status : Nat
  content_type_header : String
  body : String
deriving DecidableEq

/-- The parts of a BeautifulSoup parse that extract_html_content reads.
title_tag is soup.title: none when the document has no title element;
some str? when it exists, where str? is the tag's .string attribute
(none when the element does not contain exactly one string, e.g. an empty
title element).  In bs4 a Tag is always truthy, even when empty.
text is soup.get_text() after the script and style elements are
decomposed; anchors lists the href attributes of the a[href] elements in
document order; each meta field is none when the meta tag is absent and
some content? when present, content? being its content attribute. -/
structure Soup where
  title_tag : Option (Option String)
  text : String
  anchors : List String
  meta_description : Option (Option String)
  meta_keywords : Option (Option String)
  meta_author : Option (Option String)

/-- The outside world of one run: a finite site map giving the outcome of
requests.get per URL (error = the exception's message), the HTML parse
model, the urljoin model, and the PyPDF2 model mapping a PDF body to the
extracted text of its pages (error = a parse exception's message). -/
structure Web where
  fetch : List (String × Except String Resp)
  parse : String → Soup
  resolve : String → String → String
  pdfPages : String → Except String (List String)

deriving instance DecidableEq for Except

/-- Models requests.get(url): a URL missing from the finite site map is a
connection failure. -/
def requests_get (w : Web) (url : String) : Except String Resp :=
  match alookup url w.fetch with
  | some outcome => outcome
  | none => Except.error ("Failed to establish a new connection: " ++ url)

/-- Models response.raise_for_status(), which raises HTTPError exactly for
status codes in [400, 600). -/
def raise_for_status (url : String) (r : Resp) : Except String Unit :=
  if 400 ≤ r.status ∧ r.status < 600 then
    Except.error ("HTTPError: " ++ toString r.status ++ " for url: " ++ url)
  else Except.ok ()

/-- The CrawledContent dataclass of the source.  metadata is the
string-keyed dict in insertion order. -/
structure CrawledContent where
  url : String
  title : String
  content : String
  metadata : List (String × String)
  content_type : String
  links : List String
  crawl_depth : Nat
deriving DecidableEq

/-- The CrawledContent built by the except branch of crawl_single_url. -/
def errorContent (url : String) (depth : Nat) (e : String) : CrawledContent :=
  { url := url
    title := "Error"
    content := "Error crawling " ++ url ++ ": " ++ e
    metadata := [("error", e)]
    content_type := "error"
    links := []
    crawl_depth := depth }

/-- extract_pdf_content(pdf_url): re-fetches the URL, extracts every
page's text joined by newlines and strips it; any failure inside the try
is stringified into the returned content.  The second component is the
GET log: the one requests.get this function performs. -/
def extract_pdf_content (w : Web) (pdf_url : String) : String × List String :=
  let attempt : Except String String :=
    match requests_get w pdf_url with
    | Except.error e => Except.error e
    | Except.ok response =>
      match raise_for_status pdf_url response with
      | Except.error e => Except.error e
      | Except.ok _ =>
        match w.pdfPages response.body with
        | Except.error e => Except.error e
        | Except.ok pages =>
          Except.ok (pyStrip (String.join (pages.map (fun t => t ++ "\n"))))
  match attempt with
  | Except.ok text => (text, [pdf_url])
  | Except.error e => ("Error extracting PDF content: " ++ e, [pdf_url])

/-- The metadata value for one meta tag: absent tag leaves the initial
empty string; a present tag contributes its content attribute via
tag.get('content', ''). -/
def metaVal : Option (Option String) → String
  | none => ""
  | some content? => content?.getD ""

/-- extract_html_content(html_content, url).  The result is the tuple
(title, content, links, metadata).  The Except error is the
AttributeError the source raises when soup.title exists (a bs4 Tag is
always truthy) but its .string attribute is None, on which
.strip() is called. -/
def extract_html_content (w : Web) (html_content : String) (url : String) :
    Except String (String × String × List String × List (String × String)) :=
  let soup := w.parse html_content
  let content := pyStrip (collapseWs soup.text)
  let links :=
    (soup.anchors.map (fun href => w.resolve url href)).filter
      (fun full_url =>
        pyStartsWith full_url "http://" || pyStartsWith full_url "https://")
  let metadata :=
    [("description", metaVal soup.meta_description),
     ("keywords", metaVal soup.meta_keywords),
     ("author", metaVal soup.meta_author),
     ("published_date", "")]
  match soup.title_tag with
  | none => Except.ok ("", content, links, metadata)
  | some str? =>
    match str? with
    | none => Except.error "AttributeError: NoneType object has no attribute strip"
    | some s => Except.ok (pyStrip s, content, links, metadata)

/-- crawl_single_url(url, depth): one fetch, content-type dispatch, with
every exception of the try body converted to an error CrawledContent.
The second component is the GET log: the URLs passed to requests.get, in
order (the PDF branch calls extract_pdf_content, which performs a second
GET of the same URL). -/
def crawl_single_url (w : Web) (url : String) (depth : Nat) :
    CrawledContent × List String :=
  match requests_get w url with
  | Except.error e => (errorContent url depth e, [url])
  | Except.ok response =>
    match raise_for_status url response with
    | Except.error e => (errorContent url depth e, [url])
    | Except.ok _ =>
      let content_type := pyLower response.content_type_header
      if strContainsSub content_type "application/pdf" then
        let pdf := extract_pdf_content w url
        ({ url := url
           title := "PDF Document: " ++ pathLastSeg url
           content := pdf.1
           metadata := [("content_type", "application/pdf")]
           content_type := "pdf"
           links := []
           crawl_depth := depth }, [url] ++ pdf.2)
      else if strContainsSub content_type "text/html" then
        match extract_html_content w response.body url with
        | Except.ok (title, content, links, metadata) =>
          ({ url := url
             title := title
             content := content
             metadata := metadata
             content_type := "html"
             links := links
             crawl_depth := depth }, [url])
        | Except.error e => (errorContent url depth e, [url])
      else
        ({ url := url
           title := "Document: " ++ pathLastSeg url
           content := response.body
           metadata := [("content_type", content_type)]
           content_type := "text"
           links := []
           crawl_depth := depth }, [url])

/-- One entry of the results list of web_crawling_tool: the dict appended
per crawled page (content truncated to 5000 characters, links replaced by
their count). -/
structure ResultPage where
  url : String
  title : String
  content : String
  metadata : List (String × String)
  content_type : String
  crawl_depth : Nat
  links_found : Nat
deriving DecidableEq

/-- Builds the per-page result dict from a CrawledContent. -/
def mkResultPage (cc : CrawledContent) : ResultPage :=
  { url := cc.url
    title := cc.title
    content := pyTakeChars 5000 cc.content
    metadata := cc.metadata
    content_type := cc.content_type
    crawl_depth := cc.crawl_depth
    links_found := cc.links.length }

/-- The enqueue step of the scheduler (the tail of the while body): when
the current depth is below max_depth and the page is HTML, the first
max_links_per_page links, in extraction order, each not already in the
visited set, are enqueued at depth + 1; otherwise nothing is enqueued.
crawled_urls here already contains the page's own URL. -/
def enqueueLinks (max_depth max_links_per_page : Int)
    (crawled_content : CrawledContent) (crawled_urls : List String)
    (current_depth : Nat) : List (String × Nat) :=
  if (current_depth : Int) < max_depth ∧ crawled_content.content_type = "html" then
    ((pySlice max_links_per_page crawled_content.links).filter
        (fun link => decide (¬ link ∈ crawled_urls))).map
      (fun link => (link, current_depth + 1))
  else []

/-- The while loop of web_crawling_tool, with an explicit fuel bound on
the number of iterations (the source loop has none; its termination is
proved below).  State: the frontier queue of (url, depth) pairs, the
visited set (as a list), and the accumulated results. -/
def crawlLoop (w : Web) (max_depth max_links_per_page : Int) :
    Nat → List (String × Nat) → List String → List ResultPage →
    Option (List ResultPage)
  | 0, _, _, _ => none
  | fuel + 1, urls_to_crawl, crawled_urls, results =>
    match urls_to_crawl with
    | [] => some results
    | (current_url, current_depth) :: rest =>
      if current_url ∈ crawled_urls ∨ (current_depth : Int) > max_depth then
        crawlLoop w max_depth max_links_per_page fuel rest crawled_urls results
      else
        let crawled_urls' := crawled_urls ++ [current_url]
        let crawled_content := (crawl_single_url w current_url current_depth).1
        let results' := results ++ [mkResultPage crawled_content]
        let urls_to_crawl' := rest ++
          enqueueLinks max_depth max_links_per_page crawled_content
            crawled_urls' current_depth
        crawlLoop w max_depth max_links_per_page fuel urls_to_crawl'
          crawled_urls' results'

/-- Anchor count of one site-map entry after parsing, used to bound the
fan-out of any page the run can fetch. -/
def entryAnchors (w : Web) : String × Except String Resp → Nat
  | (_, Except.ok r) => ((w.parse r.body).anchors).length
  | (_, Except.error _) => 0

/-- A bound on the number of links of any page the run can produce. -/
def linkBound (w : Web) : Nat :=
  w.fetch.foldr (fun e acc => max (entryAnchors w e) acc) 0

/-- Weight of a frontier entry at a given depth, for the termination
measure: the fan-out bound plus one, raised to the remaining depth
budget. -/
def entryWeight (B : Nat) (max_depth : Int) (d : Nat) : Nat :=
  (B + 1) ^ (max_depth + 1 - (d : Int)).toNat

/-- Termination measure of the frontier queue: the sum of its entries'
weights. -/
def queueMeasure (B : Nat) (max_depth : Int) (q : List (String × Nat)) : Nat :=
  (q.map (fun e => entryWeight B max_depth e.2)).sum

/-- Fuel sufficient for the whole run: one more than the measure of the
initial queue. -/
def initFuel (w : Web) (max_depth : Int) : Nat :=
  entryWeight (linkBound w) max_depth 0 + 1

/-- The crawl_summary plus crawled_data of the JSON object returned by
web_crawling_tool (the timestamp, being wall-clock time, is not
modelled). -/
structure CrawlReport where
  total_pages_crawled : Nat
  base_url : String
  max_depth_used : Int
  crawled_data : List ResultPage
deriving DecidableEq

/-- web_crawling_tool(base_url, max_depth, max_links_per_page).  The
Python defaults are max_depth = 2 and max_links_per_page = 20; callers
relying on them are embedded with the defaults written out.  The loop is
run with provably sufficient fuel (crawlLoop_total below); getD covers
the fuel-exhausted case that never occurs. -/
def web_crawling_tool (w : Web) (base_url : String)
    (max_depth max_links_per_page : Int) : CrawlReport :=
  let results :=
    (crawlLoop w max_depth max_links_per_page (initFuel w max_depth)
      [(base_url, 0)] [] []).getD []
  { total_pages_crawled := results.length
    base_url := base_url
    max_depth_used := max_depth
    crawled_data := results }

/-- crawl_website_wrapper(url, max_depth, max_links_per_page) of
src/agents/web_crawling_agent.py: its body is
web_crawling_tool(url, max_depth), so max_links_per_page is ignored and
web_crawling_tool's default 20 applies. -/
def crawl_website_wrapper (w : Web) (url : String)
    (max_depth _max_links_per_page : Int) : CrawlReport :=
  web_crawling_tool w url max_depth 20

/-- crawl_website(url, max_depth): json.loads of the web_crawling_tool
output (the JSON round trip is collapsed; web_crawling_tool's default
max_links_per_page = 20 applies). -/
def crawl_website (w : Web) (url : String) (max_depth : Int) : CrawlReport :=
  web_crawling_tool w url max_depth 20

/-- Whether crawl_single_url on this URL reaches the PDF branch: the GET
succeeds, raise_for_status does not raise, and the lowercased
content-type header contains application/pdf. -/
def pdfPath (w : Web) (url : String) : Bool :=
  match requests_get w url with
  | Except.error _ => false
  | Except.ok r =>
    match raise_for_status url r with
    | Except.error _ => false
    | Except.ok _ =>
      strContainsSub (pyLower r.content_type_header) "application/pdf"

/-- The failure of the fetch phase of crawl_single_url on a URL, when
there is one: the requests.get exception's message, or the HTTPError
message from raise_for_status. -/
def fetchFailure (w : Web) (url : String) : Option String :=
  match requests_get w url with
  | Except.error e => some e
  | Except.ok r =>
    match raise_for_status url r with
    | Except.error e => some e
    | Except.ok _ => none

/-- The metadata layout crawl_single_url actually produces, keyed by the
page's content_type: only HTML pages carry the description, keywords and
author keys (plus published_date); PDF and plain-text pages carry a
single content_type key and error pages a single error key. -/
def MetadataShape (p : ResultPage) : Prop :=
  (p.content_type = "html" →
    ∃ dsc kw au, p.metadata =
      [("description", dsc), ("keywords", kw), ("author", au),
       ("published_date", "")]) ∧
  (p.content_type = "pdf" → p.metadata = [("content_type", "application/pdf")]) ∧
  (p.content_type = "text" → ∃ ct, p.metadata = [("content_type", ct)]) ∧
  (p.content_type = "error" → ∃ e, p.metadata = [("error", e)])

/-! Concrete instances used by counterexamples and witnesses. -/

/-- A parse result with no title, no text, no anchors and no meta tags. -/
def emptySoup : Soup :=
  { title_tag := none, text := "", anchors := [],
    meta_description := none, meta_keywords := none, meta_author := none }

/-- Parse result of the seed page of the example site: a title, some
text, three http anchors (one of them the seed itself) and one non-http
anchor. -/
def soupA : Soup :=
  { title_tag := some (some " Hello ")
    text := "a  b\n c"
    anchors := ["http://b", "http://c", "http://a", "ftp://x"]
    meta_description := some (some "desc")
    meta_keywords := some none
    meta_author := none }

/-- Example site: an HTML seed linking to one HTML page, one timing-out
page and itself. -/
def wEx : Web :=
  { fetch :=
      [("http://a", Except.ok
          { status := 200, content_type_header := "text/html; charset=utf-8",
            body := "A" }),
       ("http://b", Except.ok
          { status := 200, content_type_header := "text/html", body := "B" }),
       ("http://c", Except.error "timeout")]
    parse := fun body => if body = "A" then soupA else emptySoup
    resolve := fun _ href => href
    pdfPages := fun _ => Except.ok ["p1"] }

/-- Example site serving a single plain-text document. -/
def wTxt : Web :=
  { fetch :=
      [("http://t", Except.ok
          { status := 200, content_type_header := "text/plain", body := "hello" })]
    parse := fun _ => emptySoup
    resolve := fun _ href => href
    pdfPages := fun _ => Except.error "EOF marker not found" }

/-- Example site serving a single PDF document. -/
def wPdf : Web :=
  { fetch :=
      [("http://x/doc.pdf", Except.ok
          { status := 200, content_type_header := "application/pdf",
            body := "%PDF" })]
    parse := fun _ => emptySoup
    resolve := fun _ href => href
    pdfPages := fun b => if b = "%PDF" then Except.ok ["hello"] else Except.error "bad" }

/-- Example site whose seed answers 304 Not Modified: a non-2xx status
that requests returns as-is and raise_for_status does not raise on. -/
def w304 : Web :=
  { fetch :=
      [("http://m", Except.ok
          { status := 304, content_type_header := "", body := "" })]
    parse := fun _ => emptySoup
    resolve := fun _ href => href
    pdfPages := fun _ => Except.error "bad" }

/-- Parse result of a document whose title element exists but holds no
single string (e.g. an empty title element): soup.title is truthy while
soup.title.string is None. -/
def soupEmptyTitle : Soup :=
  { title_tag := some none, text := " hi ", anchors := [],
    meta_description := none, meta_keywords := none, meta_author := none }

/-- Example site serving an HTML page whose title element is empty. -/
def wBug : Web :=
  { fetch :=
      [("http://b", Except.ok
          { status := 200, content_type_header := "text/html",
            body := "<html><head><title></title></head><body>hi</body></html>" })]
    parse := fun _ => soupEmptyTitle
    resolve := fun _ href => href
    pdfPages := fun _ => Except.error "bad" }

/-- An HTML page record whose first extracted link is already visited. -/
def ccX : CrawledContent :=
  { url := "http://p", title := "", content := "",
    metadata := [("description", ""), ("keywords", ""), ("author", ""),
                 ("published_date", "")],
    content_type := "html", links := ["http://a", "http://b"], crawl_depth := 0 }

/-- The one page of the wTxt run, as web_crawling_tool records it. -/
def pX : ResultPage :=
  { url := "http://t", title := "Document: ", content := "hello",
    metadata := [("content_type", "text/plain")], content_type := "text",
    crawl_depth := 0, links_found := 0 }

/-- The loop invariant of web_crawling_tool's while loop, tying the
frontier queue, the visited set and the accumulated results together:
result URLs are distinct and all visited; result depths are
non-decreasing and bounded by max_depth; queue depths are non-decreasing
and spread over at most two consecutive levels; every queued depth is at
least every recorded depth; and every result has the metadata layout of
its content type. -/
def LoopInv (max_depth : Int) (q : List (String × Nat)) (cs : List String)
    (res : List ResultPage) : Prop :=
  (res.map ResultPage.url).Nodup ∧
  (∀ u ∈ res.map ResultPage.url, u ∈ cs) ∧
  List.Pairwise (fun p p' : ResultPage => p.crawl_depth ≤ p'.crawl_depth) res ∧
  List.Pairwise (fun e e' : String × Nat => e.2 ≤ e'.2) q ∧
  (∀ p ∈ res, ∀ e ∈ q, p.crawl_depth ≤ e.2) ∧
  (∀ e ∈ q, ∀ e' ∈ q, e.2 ≤ e'.2 + 1) ∧
  (∀ p ∈ res, (p.crawl_depth : Int) ≤ max_depth) ∧
  (∀ p ∈ res, MetadataShape p)

/-! Helper lemmas. -/

theorem alookup_mem {α : Type} {k : String} {v : α} :
    ∀ {l : List (String × α)}, alookup k l = some v → (k, v) ∈ l := by
  intro l
  induction l with
  | nil => intro h; simp [alookup] at h
  | cons hd tl ih =>
    intro h
    obtain ⟨k', v'⟩ := hd
    simp only [alookup] at h
    split at h
    · rename_i hk
      injection h with hv
      subst hv
      subst hk
      exact List.mem_cons_self _ _
    · exact List.mem_cons_of_mem _ (ih h)

theorem entryAnchors_le_linkBound {w : Web} :
    ∀ {l : List (String × Except String Resp)}, ∀ e ∈ l,
      entryAnchors w e ≤ l.foldr (fun e acc => max (entryAnchors w e) acc) 0 := by
  intro l
  induction l with
  | nil => intro e he; simp at he
  | cons hd tl ih =>
    intro e he
    rcases List.mem_cons.mp he with h | h
    · subst h; exact le_max_left _ _
    · exact le_trans (ih e h) (le_max_right _ _)

theorem requests_get_ok_mem {w : Web} {url : String} {r : Resp}
    (h : requests_get w url = Except.ok r) : (url, Except.ok r) ∈ w.fetch := by
  unfold requests_get at h
  cases ha : alookup url w.fetch with
  | none => rw [ha] at h; exact absurd h (by simp)
  | some v => rw [ha] at h; subst h; exact alookup_mem ha

theorem extract_html_content_ok_links {w : Web} {body url : String}
    {t c : String} {links : List String} {m : List (String × String)}
    (h : extract_html_content w body url = Except.ok (t, c, links, m)) :
    links = ((w.parse body).anchors.map (fun href => w.resolve url href)).filter
      (fun full_url =>
        pyStartsWith full_url "http://" || pyStartsWith full_url "https://") := by
  simp only [extract_html_content] at h
  rcases ht : (w.parse body).title_tag with _ | str?
  · rw [ht] at h
    simp only [Except.ok.injEq, Prod.mk.injEq] at h
    exact h.2.2.1.symm
  · rw [ht] at h
    cases str? with
    | none => simp at h
    | some s =>
      simp only [Except.ok.injEq, Prod.mk.injEq] at h
      exact h.2.2.1.symm

theorem extract_html_content_ok_metadata {w : Web} {body url : String}
    {t c : String} {links : List String} {m : List (String × String)}
    (h : extract_html_content w body url = Except.ok (t, c, links, m)) :
    m = [("description", metaVal (w.parse body).meta_description),
         ("keywords", metaVal (w.parse body).meta_keywords),
         ("author", metaVal (w.parse body).meta_author),
         ("published_date", "")] := by
  simp only [extract_html_content] at h
  rcases ht : (w.parse body).title_tag with _ | str?
  · rw [ht] at h
    simp only [Except.ok.injEq, Prod.mk.injEq] at h
    exact h.2.2.2.symm
  · rw [ht] at h
    cases str? with
    | none => simp at h
    | some s =>
      simp only [Except.ok.injEq, Prod.mk.injEq] at h
      exact h.2.2.2.symm

theorem crawl_single_url_links_le (w : Web) (url : String) (d : Nat) :
    (crawl_single_url w url d).1.links.length ≤ linkBound w := by
  unfold crawl_single_url
  cases hg : requests_get w url with
  | error e => simp [errorContent]
  | ok r =>
    cases hrs : raise_for_status url r with
    | error e => simp only [hrs]; simp [errorContent]
    | ok u =>
      simp only [hrs]
      split
      · simp
      · split
        · cases he : extract_html_content w r.body url with
          | error e => simp only [he]; simp [errorContent]
          | ok tuple =>
            obtain ⟨t, c, links, m⟩ := tuple
            simp only [he]
            have hl := extract_html_content_ok_links he
            have h1 : links.length ≤ ((w.parse r.body).anchors).length := by
              rw [hl]
              exact le_trans (List.length_filter_le _ _)
                (le_of_eq (List.length_map _ _))
            have h2 : entryAnchors w (url, Except.ok r) ≤ linkBound w :=
              entryAnchors_le_linkBound _ (requests_get_ok_mem hg)
            simp only [entryAnchors] at h2
            exact le_trans h1 h2
        · simp

theorem crawl_single_url_fst_url (w : Web) (url : String) (d : Nat) :
    (crawl_single_url w url d).1.url = url := by
  unfold crawl_single_url
  cases hg : requests_get w url with
  | error e => simp [errorContent]
  | ok r =>
    cases hrs : raise_for_status url r with
    | error e => simp only [hrs]; simp [errorContent]
    | ok u =>
      simp only [hrs]
      split
      · simp
      · split
        · cases he : extract_html_content w r.body url with
          | error e => simp only [he]; simp [errorContent]
          | ok tuple =>
            obtain ⟨t, c, links, m⟩ := tuple
            simp only [he]
        · simp

theorem crawl_single_url_fst_depth (w : Web) (url : String) (d : Nat) :
    (crawl_single_url w url d).1.crawl_depth = d := by
  unfold crawl_single_url
  cases hg : requests_get w url with
  | error e => simp [errorContent]
  | ok r =>
    cases hrs : raise_for_status url r with
    | error e => simp only [hrs]; simp [errorContent]
    | ok u =>
      simp only [hrs]
      split
      · simp
      · split
        · cases he : extract_html_content w r.body url with
          | error e => simp only [he]; simp [errorContent]
          | ok tuple =>
            obtain ⟨t, c, links, m⟩ := tuple
            simp only [he]
        · simp

theorem crawl_single_url_shape (w : Web) (url : String) (d : Nat) :
    MetadataShape (mkResultPage (crawl_single_url w url d).1) := by
  unfold crawl_single_url
  cases hg : requests_get w url with
  | error e => simp [errorContent, MetadataShape, mkResultPage]
  | ok r =>
    cases hrs : raise_for_status url r with
    | error e => simp only [hrs]; simp [errorContent, MetadataShape, mkResultPage]
    | ok u =>
      simp only [hrs]
      split
      · simp [MetadataShape, mkResultPage]
      · split
        · cases he : extract_html_content w r.body url with
          | error e =>
            simp only [he]
            simp [errorContent, MetadataShape, mkResultPage]
          | ok tuple =>
            obtain ⟨t, c, links, m⟩ := tuple
            simp only [he]
            have hm := extract_html_content_ok_metadata he
            subst hm
            simp [MetadataShape, mkResultPage]
        · simp [MetadataShape, mkResultPage]

theorem crawl_single_url_fetchFailure {w : Web} {url : String} {e : String}
    (h : fetchFailure w url = some e) (d : Nat) :
    crawl_single_url w url d = (errorContent url d e, [url]) := by
  unfold fetchFailure at h
  unfold crawl_single_url
  cases hg : requests_get w url with
  | error e' =>
    simp only [hg] at h ⊢
    injection h with h
    subst h
    rfl
  | ok r =>
    simp only [hg] at h ⊢
    cases hrs : raise_for_status url r with
    | error e' =>
      simp only [hrs] at h ⊢
      injection h with h
      subst h
      rfl
    | ok u =>
      simp only [hrs] at h
      exact Option.noConfusion h

/-! Termination of the crawl loop. -/

theorem one_le_entryWeight (B : Nat) (md : Int) (d : Nat) :
    1 ≤ entryWeight B md d :=
  Nat.one_le_pow _ _ (Nat.succ_pos B)

theorem entryWeight_step {md : Int} {d : Nat} (h : (d : Int) < md) (B : Nat) :
    entryWeight B md d = (B + 1) * entryWeight B md (d + 1) := by
  unfold entryWeight
  have he : (md + 1 - (d : Int)).toNat = (md + 1 - ((d : Nat) + 1 : Nat)).toNat + 1 := by
    push_cast
    omega
  rw [he, pow_succ, Nat.mul_comm]

theorem queueMeasure_cons (B : Nat) (md : Int) (u : String) (d : Nat)
    (q : List (String × Nat)) :
    queueMeasure B md ((u, d) :: q) = entryWeight B md d + queueMeasure B md q := by
  simp [queueMeasure]

theorem queueMeasure_append (B : Nat) (md : Int) (q₁ q₂ : List (String × Nat)) :
    queueMeasure B md (q₁ ++ q₂) = queueMeasure B md q₁ + queueMeasure B md q₂ := by
  simp [queueMeasure]

theorem queueMeasure_map_snd (B : Nat) (md : Int) (l : List String) (d : Nat) :
    queueMeasure B md (l.map (fun s => (s, d))) = l.length * entryWeight B md d := by
  induction l with
  | nil => simp [queueMeasure]
  | cons hd tl ih =>
    simp only [List.map_cons, queueMeasure_cons, ih, List.length_cons]
    ring

theorem enqueueLinks_measure_lt {B : Nat} {md : Int} {ml : Int}
    {cc : CrawledContent} (hlinks : cc.links.length ≤ B)
    (cs : List String) (d : Nat) :
    queueMeasure B md (enqueueLinks md ml cc cs d) < entryWeight B md d := by
  unfold enqueueLinks
  split
  · rename_i hcond
    obtain ⟨hd, -⟩ := hcond
    rw [queueMeasure_map_snd]
    have hc : ((pySlice ml cc.links).filter
        (fun link => decide (¬ link ∈ cs))).length ≤ B := by
      refine le_trans (List.length_filter_le _ _) (le_trans ?_ hlinks)
      unfold pySlice
      split
      · exact le_trans (le_of_eq (List.length_take _ _)) (min_le_right _ _)
      · exact le_trans (le_of_eq (List.length_take _ _)) (min_le_right _ _)
    calc ((pySlice ml cc.links).filter
            (fun link => decide (¬ link ∈ cs))).length * entryWeight B md (d + 1)
        ≤ B * entryWeight B md (d + 1) :=
          Nat.mul_le_mul_right _ hc
      _ < (B + 1) * entryWeight B md (d + 1) := by
          have h1 := one_le_entryWeight B md (d + 1)
          have := Nat.mul_lt_mul_of_lt_of_le (Nat.lt_succ_self B) (le_refl (entryWeight B md (d + 1)))
            (lt_of_lt_of_le Nat.zero_lt_one h1)
          exact this
      _ = entryWeight B md d := (entryWeight_step hd B).symm
  · calc queueMeasure B md [] = 0 := by simp [queueMeasure]
      _ < entryWeight B md d := one_le_entryWeight B md d

theorem crawlLoop_total (w : Web) (md ml : Int) :
    ∀ fuel q cs res, queueMeasure (linkBound w) md q < fuel →
      (crawlLoop w md ml fuel q cs res).isSome := by
  intro fuel
  induction fuel with
  | zero => intro q cs res h; exact absurd h (Nat.not_lt_zero _)
  | succ n ih =>
    intro q cs res h
    rcases q with _ | ⟨⟨u, d⟩, rest⟩
    · simp [crawlLoop]
    · rw [crawlLoop]
      have hw : 1 ≤ entryWeight (linkBound w) md d := one_le_entryWeight _ _ _
      have hm : queueMeasure (linkBound w) md ((u, d) :: rest) =
          entryWeight (linkBound w) md d + queueMeasure (linkBound w) md rest :=
        queueMeasure_cons _ _ _ _ _
      split
      · exact ih rest cs res (by omega)
      · apply ih
        rw [queueMeasure_append]
        have henq := @enqueueLinks_measure_lt (linkBound w) md ml
          ((crawl_single_url w u d).1) (crawl_single_url_links_le w u d)
          (cs ++ [u]) d
        omega

/-! The loop invariant and its preservation. -/

theorem pairwise_of_forall_rel {α : Type} {R : α → α → Prop} :
    ∀ {l : List α}, (∀ a ∈ l, ∀ b ∈ l, R a b) → List.Pairwise R l := by
  intro l
  induction l with
  | nil => intro _; exact List.Pairwise.nil
  | cons hd tl ih =>
    intro h
    refine List.Pairwise.cons ?_ (ih ?_)
    · intro b hb
      exact h hd (List.mem_cons_self _ _) b (List.mem_cons_of_mem _ hb)
    · intro a ha b hb
      exact h a (List.mem_cons_of_mem _ ha) b (List.mem_cons_of_mem _ hb)

theorem enqueueLinks_snd {md ml : Int} {cc : CrawledContent} {cs : List String}
    {d : Nat} : ∀ e ∈ enqueueLinks md ml cc cs d, e.2 = d + 1 := by
  unfold enqueueLinks
  split
  · intro e he
    obtain ⟨l, -, rfl⟩ := List.mem_map.mp he
    rfl
  · intro e he
    simp at he

theorem mkResultPage_url (w : Web) (u : String) (d : Nat) :
    (mkResultPage (crawl_single_url w u d).1).url = u := by
  simp [mkResultPage, crawl_single_url_fst_url]

theorem mkResultPage_depth (w : Web) (u : String) (d : Nat) :
    (mkResultPage (crawl_single_url w u d).1).crawl_depth = d := by
  simp [mkResultPage, crawl_single_url_fst_depth]

theorem loopInv_init (md : Int) (url : String) : LoopInv md [(url, 0)] [] [] := by
  refine ⟨by simp, by simp, by simp, by simp, by simp, ?_, by simp, by simp⟩
  intro e he e' he'
  rw [List.mem_singleton] at he he'
  subst he
  subst he'
  exact Nat.le_succ 0

theorem crawlLoop_inv (w : Web) (md ml : Int) :
    ∀ fuel q cs res out,
      crawlLoop w md ml fuel q cs res = some out →
      LoopInv md q cs res →
      (out.map ResultPage.url).Nodup ∧
      List.Pairwise (fun p p' : ResultPage => p.crawl_depth ≤ p'.crawl_depth) out ∧
      (∀ p ∈ out, (p.crawl_depth : Int) ≤ md) ∧
      (∀ p ∈ out, MetadataShape p) := by
  intro fuel
  induction fuel with
  | zero => intro q cs res out h _; exact Option.noConfusion h
  | succ n ih =>
    intro q cs res out h hinv
    rcases q with _ | ⟨⟨u, d⟩, rest⟩
    · rw [crawlLoop] at h
      injection h with h
      subst h
      exact ⟨hinv.1, hinv.2.2.1, hinv.2.2.2.2.2.2.1, hinv.2.2.2.2.2.2.2⟩
    · rw [crawlLoop] at h
      obtain ⟨hA, hB, hC, hD, hE, hF, hG, hH⟩ := hinv
      split at h
      · -- the dequeued entry is discarded: already visited or too deep
        refine ih rest cs res out h ⟨hA, hB, hC, (List.pairwise_cons.mp hD).2, ?_, ?_, hG, hH⟩
        · intro p hp e he
          exact hE p hp e (List.mem_cons_of_mem _ he)
        · intro e he e' he'
          exact hF e (List.mem_cons_of_mem _ he) e' (List.mem_cons_of_mem _ he')
      · -- the dequeued entry is processed
        rename_i hguard
        push_neg at hguard
        obtain ⟨hu, hdle⟩ := hguard
        have hpgu := mkResultPage_url w u d
        have hpgd := mkResultPage_depth w u d
        have hdhead : ∀ e ∈ rest, d ≤ e.2 := by
          intro e he
          exact (List.pairwise_cons.mp hD).1 e he
        have hspread : ∀ e ∈ rest, e.2 ≤ d + 1 := by
          intro e he
          exact hF e (List.mem_cons_of_mem _ he) (u, d) (List.mem_cons_self _ _)
        refine ih _ _ _ out h ⟨?_, ?_, ?_, ?_, ?_, ?_, ?_, ?_⟩
        · -- result URLs stay distinct
          rw [List.map_append, List.nodup_append]
          refine ⟨hA, by simp, ?_⟩
          intro a ha hb
          simp only [List.map_cons, List.map_nil, List.mem_singleton, hpgu] at hb
          subst hb
          exact hu (hB _ ha)
        · -- result URLs stay inside the visited set
          intro x hx
          rw [List.map_append] at hx
          rcases List.mem_append.mp hx with hx | hx
          · exact List.mem_append_left _ (hB _ hx)
          · simp only [List.map_cons, List.map_nil, List.mem_singleton, hpgu] at hx
            subst hx
            exact List.mem_append_right _ (List.mem_singleton.mpr rfl)
        · -- result depths stay non-decreasing
          rw [List.pairwise_append]
          refine ⟨hC, by simp, ?_⟩
          intro p hp p' hp'
          rw [List.mem_singleton] at hp'
          subst hp'
          rw [hpgd]
          exact hE p hp (u, d) (List.mem_cons_self _ _)
        · -- queue depths stay non-decreasing
          rw [List.pairwise_append]
          refine ⟨(List.pairwise_cons.mp hD).2, ?_, ?_⟩
          · refine pairwise_of_forall_rel ?_
            intro a ha b hb
            rw [enqueueLinks_snd a ha, enqueueLinks_snd b hb]
          · intro e he e' he'
            rw [enqueueLinks_snd e' he']
            exact hspread e he
        · -- queued depths dominate recorded depths
          intro p hp e he
          rcases List.mem_append.mp hp with hp | hp
          · rcases List.mem_append.mp he with he | he
            · exact hE p hp e (List.mem_cons_of_mem _ he)
            · rw [enqueueLinks_snd e he]
              exact le_trans (hE p hp (u, d) (List.mem_cons_self _ _)) (Nat.le_succ d)
          · rw [List.mem_singleton] at hp
            subst hp
            rw [hpgd]
            rcases List.mem_append.mp he with he | he
            · exact hdhead e he
            · rw [enqueueLinks_snd e he]
              exact Nat.le_succ d
        · -- queue depths stay within one level of each other
          intro e he e' he'
          rcases List.mem_append.mp he with he | he
          · rcases List.mem_append.mp he' with he' | he'
            · exact hF e (List.mem_cons_of_mem _ he) e' (List.mem_cons_of_mem _ he')
            · rw [enqueueLinks_snd e' he']
              exact le_trans (hspread e he) (Nat.le_succ _)
          · rw [enqueueLinks_snd e he]
            rcases List.mem_append.mp he' with he' | he'
            · exact Nat.succ_le_succ (hdhead e' he')
            · rw [enqueueLinks_snd e' he']
              exact Nat.le_succ _
        · -- recorded depths stay bounded by max_depth
          intro p hp
          rcases List.mem_append.mp hp with hp | hp
          · exact hG p hp
          · rw [List.mem_singleton] at hp
            subst hp
            rw [hpgd]
            omega
        · -- recorded pages keep the metadata layout of their content type
          intro p hp
          rcases List.mem_append.mp hp with hp | hp
          · exact hH p hp
          · rw [List.mem_singleton] at hp
            subst hp
            exact crawl_single_url_shape w u d

/-! Equation lemmas for the loop, and a few small facts used by the
claim theorems. -/

theorem crawlLoop_nil (w : Web) (md ml : Int) (fuel : Nat) (cs : List String)
    (res : List ResultPage) :
    crawlLoop w md ml (fuel + 1) [] cs res = some res := by
  rw [crawlLoop]

theorem crawlLoop_skip (w : Web) (md ml : Int) (fuel : Nat) (u : String)
    (d : Nat) (rest : List (String × Nat)) (cs : List String)
    (res : List ResultPage) (h : u ∈ cs ∨ (d : Int) > md) :
    crawlLoop w md ml (fuel + 1) ((u, d) :: rest) cs res =
      crawlLoop w md ml fuel rest cs res := by
  rw [crawlLoop, if_pos h]

theorem crawlLoop_process (w : Web) (md ml : Int) (fuel : Nat) (u : String)
    (d : Nat) (rest : List (String × Nat)) (cs : List String)
    (res : List ResultPage) (h : ¬(u ∈ cs ∨ (d : Int) > md)) :
    crawlLoop w md ml (fuel + 1) ((u, d) :: rest) cs res =
      crawlLoop w md ml fuel
        (rest ++ enqueueLinks md ml (crawl_single_url w u d).1 (cs ++ [u]) d)
        (cs ++ [u])
        (res ++ [mkResultPage (crawl_single_url w u d).1]) := by
  rw [crawlLoop, if_neg h]

theorem extract_pdf_content_snd (w : Web) (u : String) :
    (extract_pdf_content w u).2 = [u] := by
  unfold extract_pdf_content
  cases hg : requests_get w u with
  | error e => rfl
  | ok r =>
    simp only [hg]
    cases hrs : raise_for_status u r with
    | error e => simp only [hrs]
    | ok a =>
      simp only [hrs]
      cases hp : w.pdfPages r.body with
      | error e => simp only [hp]
      | ok pages => simp only [hp]

theorem pyTakeChars_error_ne_empty (seed e : String) :
    pyTakeChars 5000 ("Error crawling " ++ seed ++ ": " ++ e) ≠ "" := by
  have h15 : ("Error crawling " : String).length = 15 := rfl
  have hlen : 15 ≤ ("Error crawling " ++ seed ++ ": " ++ e).length := by
    rw [String.length_append, String.length_append, String.length_append, h15]
    omega
  intro hcontra
  have h2 : (pyTakeChars 5000 ("Error crawling " ++ seed ++ ": " ++ e)).length = 0 := by
    rw [hcontra]
    rfl
  have h3 : (("Error crawling " ++ seed ++ ": " ++ e).toList.take 5000).length = 0 := h2
  rw [List.length_take] at h3
  have h4 : ("Error crawling " ++ seed ++ ": " ++ e).toList.length =
      ("Error crawling " ++ seed ++ ": " ++ e).length := rfl
  omega

/-! Claim theorems. -/

/-- C1: in every run of web_crawling_tool, the url fields of the report's
pages are pairwise distinct — each URL appears at most once, the visited
set being keyed by the exact URL string. -/
theorem web_crawling_tool_urls_nodup (w : Web) (url : String) (md ml : Int) :
    ((web_crawling_tool w url md ml).crawled_data.map ResultPage.url).Nodup := by
  unfold web_crawling_tool
  cases h : crawlLoop w md ml (initFuel w md) [(url, 0)] [] [] with
  | none => simp
  | some out =>
    simp only [h, Option.getD_some]
    exact (crawlLoop_inv w md ml _ _ _ _ _ h (loopInv_init md url)).1

/-- C2: in every run of web_crawling_tool with maxDepth at least zero,
the crawl_depth values of the report's pages are non-decreasing in report
order, and no page's crawl_depth exceeds maxDepth. -/
theorem web_crawling_tool_depth_monotone_bounded (w : Web) (url : String)
    (md ml : Int) (_h0 : 0 ≤ md) :
    List.Pairwise (· ≤ ·)
      ((web_crawling_tool w url md ml).crawled_data.map ResultPage.crawl_depth) ∧
    ∀ p ∈ (web_crawling_tool w url md ml).crawled_data,
      (p.crawl_depth : Int) ≤ md := by
  unfold web_crawling_tool
  cases h : crawlLoop w md ml (initFuel w md) [(url, 0)] [] [] with
  | none => simp
  | some out =>
    simp only [h, Option.getD_some]
    have hi := crawlLoop_inv w md ml _ _ _ _ _ h (loopInv_init md url)
    exact ⟨List.pairwise_map.mpr hi.2.1, hi.2.2.1⟩

theorem web_crawling_tool_depth_monotone_bounded_witness :
    (0 : Int) ≤ 1 ∧
    (List.Pairwise (· ≤ ·)
      ((web_crawling_tool wEx "http://a" 1 20).crawled_data.map ResultPage.crawl_depth) ∧
     ∀ p ∈ (web_crawling_tool wEx "http://a" 1 20).crawled_data,
       (p.crawl_depth : Int) ≤ 1) :=
  ⟨by decide,
   web_crawling_tool_depth_monotone_bounded wEx "http://a" 1 20 (by decide)⟩

/-- C3 counterexample: a seed answering 304 Not Modified — a non-2xx
status, so inside the claim's failure scope — is not treated as a
failure by the code: raise_for_status raises only for statuses in
[400, 600), so the run records one normal plain-text page with no error
field, not an ERROR page, refuting the claim for that part of its
scope. -/
theorem non_2xx_not_error_counterexample :
    ((web_crawling_tool w304 "http://m" 1 20).crawled_data.map
      (fun p => p.content_type)) = ["text"] ∧
    ((web_crawling_tool w304 "http://m" 1 20).crawled_data.map
      (fun p => alookup "error" p.metadata)) = [none] ∧
    fetchFailure w304 "http://m" = none := by
  decide

/-- C3 amended: a seed whose fetch fails — requests.get raising (network
error, timeout), or raise_for_status raising, which happens exactly for
HTTP statuses in [400, 600); other non-2xx statuses such as 304 are
returned as-is and produce a normal page — yields a report with exactly
one page: its content_type is the error type, its content is the
non-empty string embedding the URL and the underlying message (truncated
like every page's content to 5000 characters), and its metadata error
field holds the non-empty message.  The run returns normally. -/
theorem web_crawling_tool_seed_fetch_failure (w : Web) (seed : String)
    (md ml : Int) (e : String) (h0 : 0 ≤ md)
    (hf : fetchFailure w seed = some e) (hne : e ≠ "") :
    (web_crawling_tool w seed md ml).crawled_data =
      [mkResultPage (errorContent seed 0 e)] ∧
    (mkResultPage (errorContent seed 0 e)).content_type = "error" ∧
    (mkResultPage (errorContent seed 0 e)).content =
      pyTakeChars 5000 ("Error crawling " ++ seed ++ ": " ++ e) ∧
    (mkResultPage (errorContent seed 0 e)).content ≠ "" ∧
    alookup "error" (mkResultPage (errorContent seed 0 e)).metadata = some e ∧
    e ≠ "" := by
  have hcc := crawl_single_url_fetchFailure hf 0
  have hrun : (web_crawling_tool w seed md ml).crawled_data =
      [mkResultPage (errorContent seed 0 e)] := by
    unfold web_crawling_tool
    obtain ⟨k, hk⟩ : ∃ k, initFuel w md = k + 1 + 1 := by
      have h1 := one_le_entryWeight (linkBound w) md 0
      exact ⟨entryWeight (linkBound w) md 0 - 1, by unfold initFuel; omega⟩
    rw [hk]
    have hguard : ¬(seed ∈ ([] : List String) ∨ ((0 : Nat) : Int) > md) := by
      simp
      omega
    rw [crawlLoop_process w md ml (k + 1) seed 0 [] [] [] hguard]
    rw [hcc]
    have henq : enqueueLinks md ml (errorContent seed 0 e) [seed] 0 = [] := by
      unfold enqueueLinks
      rw [if_neg]
      simp [errorContent]
    simp only [List.nil_append]
    rw [henq, crawlLoop_nil]
    simp
  refine ⟨hrun, rfl, rfl, ?_, rfl, hne⟩
  exact pyTakeChars_error_ne_empty seed e

theorem web_crawling_tool_seed_fetch_failure_witness :
    (0 : Int) ≤ 1 ∧ fetchFailure wEx "http://c" = some "timeout" ∧
    "timeout" ≠ "" ∧
    ((web_crawling_tool wEx "http://c" 1 20).crawled_data =
       [mkResultPage (errorContent "http://c" 0 "timeout")] ∧
     (mkResultPage (errorContent "http://c" 0 "timeout")).content_type = "error" ∧
     (mkResultPage (errorContent "http://c" 0 "timeout")).content =
       pyTakeChars 5000 ("Error crawling " ++ "http://c" ++ ": " ++ "timeout") ∧
     (mkResultPage (errorContent "http://c" 0 "timeout")).content ≠ "" ∧
     alookup "error" (mkResultPage (errorContent "http://c" 0 "timeout")).metadata =
       some "timeout" ∧
     ("timeout" : String) ≠ "") :=
  ⟨by decide, by decide, by decide,
   web_crawling_tool_seed_fetch_failure wEx "http://c" 1 20 "timeout"
     (by decide) (by decide) (by decide)⟩

/-- C4: the frontier loop always drains: with the chosen fuel the loop
returns a result for every site map, seed, maxDepth and maxLinksPerPage,
including sites whose pages link back to already-seen URLs or to
themselves. -/
theorem crawlLoop_drains (w : Web) (url : String) (md ml : Int) :
    (crawlLoop w md ml (initFuel w md) [(url, 0)] [] []).isSome := by
  apply crawlLoop_total
  unfold initFuel
  rw [queueMeasure_cons]
  have hnil : queueMeasure (linkBound w) md [] = 0 := by simp [queueMeasure]
  omega

/-- C5 counterexample: the enqueue step of the scheduler (lines 190 to
195 of the source, embedded as enqueueLinks) does not enqueue the first
maxLinksPerPage links unconditionally: a link already in the visited set
is dropped at enqueue time.  Here the page's first link is the already
visited http a, and the enqueued list differs from the claimed one. -/
theorem enqueueLinks_dedup_counterexample :
    enqueueLinks 1 20 ccX ["http://a"] 0 = [("http://b", 1)] ∧
    (pySlice 20 ccX.links).map (fun l => (l, 1)) =
      [("http://a", 1), ("http://b", 1)] ∧
    enqueueLinks 1 20 ccX ["http://a"] 0 ≠
      (pySlice 20 ccX.links).map (fun l => (l, 1)) := by
  decide

/-- C5 amended: for an HTML page at depth d below maxDepth, the scheduler
enqueues, in extraction order, exactly those of the first maxLinksPerPage
links that are not yet in the visited set at enqueue time, each at depth
d plus one (so visited links are filtered at enqueue, in addition to the
visited check at dequeue). -/
theorem enqueueLinks_characterization (md ml : Int) (cc : CrawledContent)
    (cs : List String) (d : Nat) (hd : (d : Int) < md)
    (hhtml : cc.content_type = "html") :
    List.Sublist ((enqueueLinks md ml cc cs d).map Prod.fst)
      (pySlice ml cc.links) ∧
    (∀ e ∈ enqueueLinks md ml cc cs d, e.2 = d + 1 ∧ e.1 ∉ cs) ∧
    (∀ l ∈ pySlice ml cc.links, l ∉ cs →
      (l, d + 1) ∈ enqueueLinks md ml cc cs d) := by
  unfold enqueueLinks
  rw [if_pos ⟨hd, hhtml⟩]
  refine ⟨?_, ?_, ?_⟩
  · rw [List.map_map]
    have hid : (Prod.fst ∘ fun l : String => (l, d + 1)) = id := rfl
    rw [hid, List.map_id]
    exact List.filter_sublist _
  · intro e he
    obtain ⟨l, hl, rfl⟩ := List.mem_map.mp he
    obtain ⟨hmem, hdec⟩ := List.mem_filter.mp hl
    exact ⟨rfl, of_decide_eq_true hdec⟩
  · intro l hl hnot
    exact List.mem_map.mpr ⟨l, List.mem_filter.mpr ⟨hl, decide_eq_true hnot⟩, rfl⟩

theorem enqueueLinks_characterization_witness :
    ((0 : Nat) : Int) < 1 ∧ ccX.content_type = "html" ∧
    (List.Sublist ((enqueueLinks 1 20 ccX ["http://a"] 0).map Prod.fst)
       (pySlice 20 ccX.links) ∧
     (∀ e ∈ enqueueLinks 1 20 ccX ["http://a"] 0,
        e.2 = 0 + 1 ∧ e.1 ∉ ["http://a"]) ∧
     (∀ l ∈ pySlice 20 ccX.links, l ∉ ["http://a"] →
        (l, 0 + 1) ∈ enqueueLinks 1 20 ccX ["http://a"] 0)) :=
  ⟨by decide, by decide,
   enqueueLinks_characterization 1 20 ccX ["http://a"] 0 (by decide) (by decide)⟩

/-- C6 counterexample: with a negative maxDepth no ConfigurationError is
surfaced — no such error exists in the code — and a normal, empty report
is returned: the run starts, the seed is discarded by the depth guard,
and the loop ends. -/
theorem negative_depth_counterexample :
    (web_crawling_tool wEx "http://a" (-1) 20).crawled_data = [] ∧
    (web_crawling_tool wEx "http://a" (-1) 20).total_pages_crawled = 0 ∧
    (web_crawling_tool wEx "http://a" (-1) 20).base_url = "http://a" := by
  decide

/-- C6 amended: web_crawling_tool performs no configuration validation.
With a negative maxDepth it returns a normal report with zero pages (the
seed entry is discarded by the depth guard before any fetch); the
function is total, so no error is surfaced for negative parameters. -/
theorem web_crawling_tool_no_validation (w : Web) (url : String)
    (md ml : Int) (h : md < 0) :
    (web_crawling_tool w url md ml).crawled_data = [] ∧
    (web_crawling_tool w url md ml).total_pages_crawled = 0 := by
  unfold web_crawling_tool
  have hfuel : initFuel w md = 1 + 1 := by
    unfold initFuel entryWeight
    have h0 : (md + 1 - ((0 : Nat) : Int)).toNat = 0 := by omega
    rw [h0, pow_zero]
  rw [hfuel]
  rw [crawlLoop_skip w md ml 1 url 0 [] [] [] (Or.inr (by omega))]
  have h1 : (1 : Nat) = 0 + 1 := rfl
  rw [h1, crawlLoop_nil]
  simp

theorem web_crawling_tool_no_validation_witness :
    (-1 : Int) < 0 ∧
    ((web_crawling_tool wEx "http://a" (-1) 20).crawled_data = [] ∧
     (web_crawling_tool wEx "http://a" (-1) 20).total_pages_crawled = 0) :=
  ⟨by decide, web_crawling_tool_no_validation wEx "http://a" (-1) 20 (by decide)⟩

/-- C7 counterexample: on a URL served as application/pdf, one call to
crawl_single_url issues two HTTP GET requests for that URL, not one:
the initial fetch, then the re-fetch inside extract_pdf_content. -/
theorem pdf_two_gets_counterexample :
    (crawl_single_url wPdf "http://x/doc.pdf" 0).2 =
      ["http://x/doc.pdf", "http://x/doc.pdf"] ∧
    ((crawl_single_url wPdf "http://x/doc.pdf" 0).2).length ≠ 1 := by
  decide

/-- C7 amended: the GET log of one crawl_single_url call is exactly one
GET of the URL on the HTML, plain-text and failure paths, and exactly two
GETs of the same URL on the PDF path; there are no retries and no
caching on any path. -/
theorem crawl_single_url_get_log (w : Web) (url : String) (d : Nat) :
    (crawl_single_url w url d).2 =
      if pdfPath w url then [url, url] else [url] := by
  cases hb : pdfPath w url
  · simp only [Bool.false_eq_true, if_false]
    unfold pdfPath at hb
    unfold crawl_single_url
    cases hg : requests_get w url with
    | error e => rfl
    | ok r =>
      simp only [hg] at hb ⊢
      cases hrs : raise_for_status url r with
      | error e => simp only [hrs]
      | ok u =>
        simp only [hrs] at hb ⊢
        rw [if_neg (by rw [hb]; exact Bool.false_ne_true)]
        split
        · cases he : extract_html_content w r.body url with
          | error e => simp only [he]
          | ok tuple => obtain ⟨t, c, links, m⟩ := tuple; simp only [he]
        · rfl
  · simp only [if_true]
    unfold pdfPath at hb
    unfold crawl_single_url
    cases hg : requests_get w url with
    | error e =>
      simp only [hg] at hb
      exact absurd hb Bool.false_ne_true
    | ok r =>
      simp only [hg] at hb ⊢
      cases hrs : raise_for_status url r with
      | error e =>
        simp only [hrs] at hb
        exact absurd hb Bool.false_ne_true
      | ok u =>
        simp only [hrs] at hb ⊢
        rw [if_pos hb, extract_pdf_content_snd]
        rfl

/-- C8 counterexample: the single plain-text page of this run lacks the
description key (and likewise keywords and author): only HTML pages carry
those metadata keys. -/
theorem metadata_keys_counterexample :
    ((web_crawling_tool wTxt "http://t" 0 20).crawled_data.map
      (fun p => alookup "description" p.metadata)) = [none] ∧
    ((web_crawling_tool wTxt "http://t" 0 20).crawled_data.map
      (fun p => p.content_type)) = ["text"] := by
  decide

/-- C8 amended: every page of every run carries the metadata layout of
its content type: HTML pages carry description, keywords and author
(each a string, absent meta tags contributing the empty string) plus
published_date; PDF and plain-text pages carry a single content_type
key; error pages a single error key. -/
theorem web_crawling_tool_metadata_shape (w : Web) (url : String)
    (md ml : Int) :
    ∀ p ∈ (web_crawling_tool w url md ml).crawled_data, MetadataShape p := by
  unfold web_crawling_tool
  cases h : crawlLoop w md ml (initFuel w md) [(url, 0)] [] [] with
  | none => simp
  | some out =>
    simp only [h, Option.getD_some]
    exact (crawlLoop_inv w md ml _ _ _ _ _ h (loopInv_init md url)).2.2.2

theorem web_crawling_tool_metadata_shape_witness :
    pX ∈ (web_crawling_tool wTxt "http://t" 0 20).crawled_data ∧
    MetadataShape pX :=
  ⟨by decide,
   web_crawling_tool_metadata_shape wTxt "http://t" 0 20 pX (by decide)⟩

/-- C9: evaluation at the failing input.  On an HTML document whose first
title element exists but has no text (its bs4 .string is None, the tag
itself being truthy), extract_html_content does not return an empty
title: it raises AttributeError, which crawl_single_url converts into an
error page, so the page is recorded with content_type error instead of
html. -/
theorem empty_title_attribute_error :
    extract_html_content wBug
      "<html><head><title></title></head><body>hi</body></html>" "http://b" =
      Except.error "AttributeError: NoneType object has no attribute strip" ∧
    (crawl_single_url wBug "http://b" 0).1.content_type = "error" ∧
    (crawl_single_url wBug "http://b" 0).1.title = "Error" ∧
    (crawl_single_url wBug "http://b" 0).1.content =
      "Error crawling http://b: AttributeError: NoneType object has no attribute strip" := by
  decide

/-- C10: crawl_website_wrapper passes only the URL and depth on to
web_crawling_tool, so its max_links_per_page argument is ignored and the
default fan-out cap 20 always applies; crawl_website likewise always runs
with fan-out cap 20. -/
theorem crawl_website_wrapper_ignores_fanout (w : Web) (url : String)
    (md ml ml' : Int) :
    crawl_website_wrapper w url md ml = web_crawling_tool w url md 20 ∧
    crawl_website_wrapper w url md ml = crawl_website_wrapper w url md ml' ∧
    crawl_website w url md = web_crawling_tool w url md 20 :=
  ⟨rfl, rfl, rfl⟩

end Bedeo
